import Mathlib

/-! Verification development for the ESS ingestion pipeline
    (src/ingestor/main.py, src/ingestor/db_flushers.py, src/ingestor/utils.py).

    Shallow embedding conventions:
    * timestamps are integers (seconds); SQL NULL is `Option.none`;
    * a JSON payload is an association list from field names to `Value`;
      an ISO timestamp string in a payload is represented by its parsed
      integer value, with the empty string / JSON null / absent key all
      collapsed to `none` (they are all falsy in the Python `or` chains
      and never survive into a normalized record);
    * SQL tables are lists of row structures; an upsert / conditional
      update is a pure function on the list; a transaction that can fail
      is a function into `Except String`. -/

namespace EssIngestor

/-- A decoded JSON payload value, as seen by `int()` coercion in Python:
    numbers, strings, booleans, null, or any other shape (object/array),
    which `int()` rejects. -/
inductive Value where
  | vnum (n : Int)
  | vstr (s : String)
  | vbool (b : Bool)
  | vnull
  | vobj
deriving DecidableEq, Repr

/-- A JSON object payload: association list from keys to values
    (`payload.get(k)` returns `none` when the key is absent). -/
abbrev Payload : Type := List (String × Value)

/-- `payload.get(k)` — first binding for `k`, if any. -/
def Payload.get (p : Payload) (k : String) : Option Value :=
  (List.find? (fun kv => kv.1 == k) p).map (fun kv => kv.2)

/-- `to_int(v, default)` from src/ingestor/main.py lines 79-84:
    `None` maps to the default, otherwise `int(v)` with any conversion
    failure (non-numeric string, object, array) caught and mapped to the
    default.  Python `int` truncates nothing here because device payloads
    are integral; numeric strings parse via `String.toInt?`, booleans
    coerce to 0/1. -/
def to_int (v : Option Value) (default : Int) : Int :=
  match v with
  | none => default
  | some Value.vnull => default
  | some (Value.vnum n) => n
  | some (Value.vbool b) => if b then 1 else 0
  | some (Value.vstr s) => (s.toInt?).getD default
  | some Value.vobj => default

/-- `FIELDS` from src/ingestor/main.py lines 37-47: the fixed shape of a
    normalized realtime telemetry record. -/
def FIELDS : List String :=
  [ "device_id",
    "soc", "soh",
    "pv", "load", "grid", "grid_q", "batt",
    "ac_v", "ac_f",
    "v_a", "v_b", "v_c",
    "i_a", "i_b", "i_c",
    "p_a", "p_b", "p_c",
    "q_a", "q_b", "q_c",
    "e_pv_today", "e_load_today", "e_charge_today", "e_discharge_today" ]

/-- `normalize(sn, payload)` from src/ingestor/main.py lines 86-101: a dict
    with exactly the keys of `FIELDS`; `device_id` is the parsed topic id,
    `soc` defaults to 0, `soh` defaults to 100, every other field is
    `to_int(payload.get(k), 0)`.  (The explicit loop list in the source is
    exactly `FIELDS` minus `device_id`/`soc`/`soh`, so building the record
    by one pass over `FIELDS` yields the same mapping.) -/
def normalize (sn : Int) (payload : Payload) : List (String × Int) :=
  FIELDS.map (fun k =>
    if k = "device_id" then (k, sn)
    else if k = "soc" then (k, to_int (payload.get "soc") 0)
    else if k = "soh" then (k, to_int (payload.get "soh") 100)
    else (k, to_int (payload.get k) 0))

/-- Dict lookup on a normalized record. -/
def lookupField (d : List (String × Int)) (k : String) : Option Int :=
  (List.find? (fun kv => kv.1 == k) d).map (fun kv => kv.2)

/-! ## Alarm message normalization and routing (on_message, alarm branch) -/

/-- The fields of the JSON body of a `devices/+/alarm` message that the
    router reads (src/ingestor/main.py lines 581-598).  Timestamp fields
    carry their parsed integer value; absent / null / empty-string (all
    falsy in the Python `or`) are `none`. -/
structure AlarmPayload where
  alarm_type : Option String := none
  code : Option Int := none
  level : Option String := none
  extra : Option String := none
  status : Option String := none
  remark : Option String := none
  confirmed_at : Option Int := none
  confirmed_by : Option String := none
  cleared_at : Option Int := none
  cleared_by : Option String := none
deriving DecidableEq, Repr

/-- Python truthiness of an optional string (`None` and `""` are falsy). -/
def truthyStr (s : Option String) : Bool :=
  match s with
  | none => false
  | some v => !(v == "")

/-- The normalized alarm record the router builds and enqueues
    (the `alarm = { ... }` dict, src/ingestor/main.py lines 583-598). -/
structure Alarm where
  device_id : Int
  alarm_type : String
  code : Int
  level : String
  extra : String
  status : String
  first_triggered_at : Int
  last_triggered_at : Int
  repeat_count : Int
  remark : Option String
  confirmed_at : Option Int
  confirmed_by : Option String
  cleared_at : Option Int
  cleared_by : Option String
deriving DecidableEq, Repr

/-- Building the alarm record from a decoded payload at receipt time `now`
    (src/ingestor/main.py lines 582-598).  `extra` is the JSON
    serialization of the payload's `extra` member, `"\x7b\x7d"` when absent;
    `confirmed_at` falls back to `now` when the payload reports status
    `"confirmed"` or carries a truthy `confirmed_by`; `cleared_at` falls
    back to `now` when the payload reports status `"cleared"`. -/
def normalizeAlarm (sn : Int) (now : Int) (p : AlarmPayload) : Alarm where
  device_id := sn
  alarm_type := p.alarm_type.getD "unknown"
  code := p.code.getD 0
  level := p.level.getD "info"
  extra := p.extra.getD "\x7b\x7d"
  status := p.status.getD "active"
  first_triggered_at := now
  last_triggered_at := now
  repeat_count := 1
  remark := p.remark
  confirmed_at :=
    match p.confirmed_at with
    | some t => some t
    | none =>
        if p.status == some "confirmed" || truthyStr p.confirmed_by
        then some now else none
  confirmed_by := p.confirmed_by
  cleared_at :=
    match p.cleared_at with
    | some t => some t
    | none => if p.status == some "cleared" then some now else none
  cleared_by := p.cleared_by

/-- The archival classification (src/ingestor/main.py lines 600-608):
    critical alarms archive only when cleared with a confirmation
    timestamp; every other level archives whenever cleared. -/
def should_archive (a : Alarm) : Bool :=
  if a.level == "critical" then
    a.status == "cleared" && a.confirmed_at.isSome
  else
    a.status == "cleared"

/-- Destination of a routed alarm record: the archiver queue or the
    ordinary alarm stream queue. -/
inductive Route where
  | archive
  | alarmQueue
deriving DecidableEq, Repr

/-- `archive_alarm_q.put` vs `alarm_q.put` (src/ingestor/main.py 610-613). -/
def routeAlarm (a : Alarm) : Route :=
  if should_archive a then Route.archive else Route.alarmQueue

/-! ## Bounded stream queues and the router callback -/

/-- A bounded in-memory queue (`queue.Queue(maxsize=QUEUE_MAXSIZE)`).
    `maxsize = 0` means unbounded, as in Python. -/
structure BQueue (α : Type) where
  items : List α
  maxsize : Nat
deriving Repr

/-- `q.put(x, block=False)`: raises `Full` (here: `Except.error`) when a
    bounded queue is at or over capacity, otherwise appends. -/
def BQueue.put_nowait (q : BQueue α) (x : α) : Except String (BQueue α) :=
  if 0 < q.maxsize ∧ q.maxsize ≤ q.items.length then Except.error "Full"
  else Except.ok { q with items := q.items ++ [x] }

/-- A queue is at capacity. -/
def BQueue.isFull (q : BQueue α) : Bool :=
  decide (0 < q.maxsize ∧ q.maxsize ≤ q.items.length)

/-- The fields of the JSON body of a `devices/+/history` message that
    `normalize_history` (src/ingestor/main.py 156-165) reads.  `ts` is a
    timestamp (its parsed integer value; absent / null is `none`), the
    counters are integers. -/
structure HistoryPayload where
  ts : Option Int := none
  charge_wh_total : Option Int := none
  discharge_wh_total : Option Int := none
  pv_wh_total : Option Int := none
  grid_wh_total : Option Int := none
  load_wh_total : Option Int := none
deriving DecidableEq, Repr

/-- The normalized history-energy record the router enqueues: the dict
    built by `normalize_history` in src/ingestor/main.py 156-165 (`ts` is
    passed through unchanged, so it stays null when absent; the counters
    default to 0). -/
structure HistoryMsg where
  device_id : Int
  ts : Option Int
  charge_wh_total : Int
  discharge_wh_total : Int
  pv_wh_total : Int
  grid_wh_total : Int
  load_wh_total : Int
deriving DecidableEq, Repr

/-- `normalize_history(sn, payload)` from src/ingestor/main.py 156-165. -/
def normalize_history (sn : Int) (p : HistoryPayload) : HistoryMsg where
  device_id := sn
  ts := p.ts
  charge_wh_total := p.charge_wh_total.getD 0
  discharge_wh_total := p.discharge_wh_total.getD 0
  pv_wh_total := p.pv_wh_total.getD 0
  grid_wh_total := p.grid_wh_total.getD 0
  load_wh_total := p.load_wh_total.getD 0

/-- The device-parameter record the router enqueues (the `para = ...`
    dict, src/ingestor/main.py 618-622): the whole decoded payload is
    kept as the parameter blob, and `updated_at` is the payload's
    `updated_at` member or, when absent, the receipt-time ISO string
    (represented, per the file conventions, by its parsed value). -/
structure ParaMsg where
  device_id : Int
  para : Payload
  updated_at : Value
deriving DecidableEq, Repr

/-- Building the parameter record at receipt time `now`
    (src/ingestor/main.py 618-622). -/
def normalizePara (sn : Int) (now : Int) (p : Payload) : ParaMsg where
  device_id := sn
  para := p
  updated_at := (p.get "updated_at").getD (Value.vnum now)

/-- The fields of the JSON body of a `devices/+/rpc_ack` message that the
    router reads (src/ingestor/main.py 627-645). -/
structure RpcAckPayload where
  response_id : Option String := none
  status : Option String := none
deriving DecidableEq, Repr

/-- The status validation of src/ingestor/main.py 636-639: anything
    outside success / failed / error / timeout (including an absent or
    null status, which defaults to "error") collapses to "error". -/
def rpcAckStatus (p : RpcAckPayload) : String :=
  if p.status.getD "error" = "success" ∨ p.status.getD "error" = "failed" ∨
     p.status.getD "error" = "error" ∨ p.status.getD "error" = "timeout"
  then p.status.getD "error" else "error"

/-- The normalized acknowledgment record the router enqueues
    (src/ingestor/main.py 641-645).  The database column is still named
    `request_id` but its value comes from the payload's `response_id`. -/
structure RpcAck where
  device_sn : String
  request_id : String
  status : String
deriving DecidableEq, Repr

/-- Building the acknowledgment record (src/ingestor/main.py 641-645). -/
def normalizeRpcAck (sn : String) (p : RpcAckPayload) : RpcAck where
  device_sn := sn
  request_id := p.response_id.getD ""
  status := rpcAckStatus p

/-- The router state: the five per-class stream queues of
    src/ingestor/main.py (`q`, `history_q`, `alarm_q`, `para_q`,
    `rpc_ack_q`) plus the archiver's queue `archive_alarm_q`, all
    module-level bounded queues of capacity QUEUE_MAXSIZE. -/
structure RouterState where
  q : BQueue (List (String × Int))
  history_q : BQueue HistoryMsg
  alarm_q : BQueue Alarm
  para_q : BQueue ParaMsg
  rpc_ack_q : BQueue RpcAck
  archive_alarm_q : BQueue Alarm
deriving Repr

/-- The realtime branch of `on_message` (src/ingestor/main.py 565-570),
    including the surrounding try/except: a `Full` exception from the
    non-blocking put is caught, logged, and the callback returns with the
    state unchanged.  Returns the new state and the log lines emitted. -/
def onRealtimeMessage (st : RouterState) (sn : Int) (payload : Payload) :
    RouterState × List String :=
  match st.q.put_nowait (normalize sn payload) with
  | Except.ok q2 => ({ st with q := q2 }, [])
  | Except.error e => (st, ["[on_message] error: " ++ e])

/-- The alarm branch of `on_message` (src/ingestor/main.py 577-613),
    including the surrounding try/except: normalize, classify, then a
    non-blocking put on the selected queue; a `Full` exception is caught
    and logged, leaving both queues unchanged. -/
def onAlarmMessage (st : RouterState) (now : Int) (sn : Int) (p : AlarmPayload) :
    RouterState × List String :=
  let alarm := normalizeAlarm sn now p
  if should_archive alarm then
    match st.archive_alarm_q.put_nowait alarm with
    | Except.ok q2 => ({ st with archive_alarm_q := q2 }, [])
    | Except.error e => (st, ["[on_message] error: " ++ e])
  else
    match st.alarm_q.put_nowait alarm with
    | Except.ok q2 => ({ st with alarm_q := q2 }, [])
    | Except.error e => (st, ["[on_message] error: " ++ e])

/-- The history branch of `on_message` (src/ingestor/main.py 571-576),
    including the surrounding try/except: normalize, then a non-blocking
    put on `history_q`; a `Full` exception is caught and logged, leaving
    the state unchanged. -/
def onHistoryMessage (st : RouterState) (sn : Int) (p : HistoryPayload) :
    RouterState × List String :=
  match st.history_q.put_nowait (normalize_history sn p) with
  | Except.ok q2 => ({ st with history_q := q2 }, [])
  | Except.error e => (st, ["[on_message] error: " ++ e])

/-- The para branch of `on_message` (src/ingestor/main.py 614-623),
    including the surrounding try/except: build the parameter record,
    then a non-blocking put on `para_q`; a `Full` exception is caught and
    logged, leaving the state unchanged. -/
def onParaMessage (st : RouterState) (now sn : Int) (p : Payload) :
    RouterState × List String :=
  match st.para_q.put_nowait (normalizePara sn now p) with
  | Except.ok q2 => ({ st with para_q := q2 }, [])
  | Except.error e => (st, ["[on_message] error: " ++ e])

/-- The rpc_ack branch of `on_message` (src/ingestor/main.py 624-647),
    including the surrounding try/except: a falsy `response_id` is logged
    and the message discarded without an enqueue; otherwise the validated
    record is put non-blockingly on `rpc_ack_q` — on success the receipt
    is logged, and a `Full` exception skips the receipt log and is caught
    and logged by the outer handler, leaving the state unchanged. -/
def onRpcAckMessage (st : RouterState) (sn : String) (p : RpcAckPayload) :
    RouterState × List String :=
  if truthyStr p.response_id then
    match st.rpc_ack_q.put_nowait (normalizeRpcAck sn p) with
    | Except.ok q2 =>
        ({ st with rpc_ack_q := q2 },
         ["[RPC_ACK] received from device " ++ sn ++ ": "
            ++ p.response_id.getD "" ++ " -> " ++ rpcAckStatus p])
    | Except.error e => (st, ["[on_message] error: " ++ e])
  else (st, ["[RPC_ACK] missing response_id from device " ++ sn])

/-! ## Storage model: tables as lists of rows -/

/-- A row of the `devices` table. -/
structure DeviceRow where
  id : Int
  device_sn : String
deriving DecidableEq, Repr

/-- `String.mk (List.replicate k c)`: a run of `k` copies of a digit. -/
def charRun (k : Nat) (c : Char) : String :=
  String.mk (List.replicate k c)

/-- Python `f"\x7bdid:04d\x7d"`: decimal rendering zero-padded to width 4,
    sign ahead of the padding. -/
def fmt04d (n : Int) : String :=
  if n < 0 then
    let s := toString (-n).toNat
    "-" ++ (if s.length + 1 < 4 then charRun (3 - s.length) '0' ++ s else s)
  else
    let s := toString n.toNat
    if s.length < 4 then charRun (4 - s.length) '0' ++ s else s

/-- The deterministic placeholder serial `f"SN\x7bdid:04d\x7d"`
    (src/ingestor/main.py line 660). -/
def placeholderSN (did : Int) : String :=
  "SN" ++ fmt04d did

/-- `INSERT INTO devices ... ON CONFLICT (id) DO NOTHING` for one id. -/
def deviceInsertIfAbsent (devs : List DeviceRow) (did : Int) : List DeviceRow :=
  if devs.any (fun d => d.id == did) then devs
  else devs ++ [{ id := did, device_sn := placeholderSN did }]

/-- `ensure_devices_exist(cur, batch)` (src/ingestor/main.py 652-661):
    insert-if-absent of every device id referenced by the batch.  The
    source deduplicates the ids through a `set` before the batch insert;
    folding the conflict-free insert over the raw id list reaches the same
    table because a repeated id is a no-op. -/
def ensure_devices_exist (devs : List DeviceRow) (ids : List Int) : List DeviceRow :=
  ids.foldl deviceInsertIfAbsent devs

/-- Modelled from the spec: the SQL schema (init/schema.sql, read by
    src/scripts/init_db.py) is not under src/, so the referential
    integrity constraint is taken from spec sections 2, 4.3 and 4.5 — the
    telemetry, history and alarm tables reference the `devices` table and
    the device upsert exists to prevent referential-integrity failures.
    A child row may only reference an existing device id. -/
def fkOk (devs : List DeviceRow) (did : Int) : Bool :=
  devs.any (fun d => d.id == did)

/-- A row of `ess_realtime_data`: the latest normalized snapshot per
    device plus its write time (`UPSERT_SQL`, src/ingestor/main.py
    103-136). -/
structure TelemetryRow where
  device_id : Int
  fields : List (String × Int)
  updated_at : Int
deriving DecidableEq, Repr

/-- The device id a normalized telemetry record carries (`normalize`
    always binds the key, so the default is never reached on its
    output). -/
def recDeviceId (r : List (String × Int)) : Int :=
  (lookupField r "device_id").getD 0

/-- `UPSERT_SQL` semantics: insert keyed on `device_id`; on conflict
    overwrite every field and advance `updated_at` to write time. -/
def telemetryUpsert (tbl : List TelemetryRow) (now : Int)
    (r : List (String × Int)) : List TelemetryRow :=
  if tbl.any (fun t => t.device_id == recDeviceId r) then
    tbl.map (fun t =>
      if t.device_id == recDeviceId r then
        { t with fields := r, updated_at := now }
      else t)
  else tbl ++ [{ device_id := recDeviceId r, fields := r, updated_at := now }]

/-- A normalized history-energy record / a row of `history_energy`
    (`normalize_history` and `HISTORY_UPSERT_SQL`). -/
structure HistoryRec where
  device_id : Int
  ts : Int
  charge_wh_total : Int
  discharge_wh_total : Int
  pv_wh_total : Int
  grid_wh_total : Int
  load_wh_total : Int
deriving DecidableEq, Repr

/-- `HISTORY_UPSERT_SQL` semantics: insert keyed on `(device_id, ts)`;
    on conflict overwrite the five counters. -/
def historyUpsert (tbl : List HistoryRec) (r : HistoryRec) : List HistoryRec :=
  if tbl.any (fun t => t.device_id == r.device_id && t.ts == r.ts) then
    tbl.map (fun t =>
      if t.device_id == r.device_id && t.ts == r.ts then
        { t with charge_wh_total := r.charge_wh_total,
                 discharge_wh_total := r.discharge_wh_total,
                 pv_wh_total := r.pv_wh_total,
                 grid_wh_total := r.grid_wh_total,
                 load_wh_total := r.load_wh_total }
      else t)
  else tbl ++ [r]

/-- A row of the live `alarms` table (columns written by
    `ALARM_UPSERT_SQL` plus the serial `id` the archiver deletes by). -/
structure AlarmRow where
  id : Int
  device_id : Int
  alarm_type : String
  code : Int
  level : String
  extra : String
  status : String
  first_triggered_at : Option Int
  last_triggered_at : Int
  repeat_count : Int
  remark : Option String
  confirmed_at : Option Int
  confirmed_by : Option String
  cleared_at : Option Int
  cleared_by : Option String
deriving DecidableEq, Repr

/-- The conflict target of `ALARM_UPSERT_SQL` (src/ingestor/main.py line
    181): `(device_id, alarm_type, code, status)`. -/
def alarmConflicts (a : Alarm) (r : AlarmRow) : Bool :=
  r.device_id == a.device_id && r.alarm_type == a.alarm_type &&
  r.code == a.code && r.status == a.status

/-- The row inserted by `ALARM_UPSERT_SQL` when there is no conflict. -/
def insertedAlarmRow (newId : Int) (a : Alarm) : AlarmRow where
  id := newId
  device_id := a.device_id
  alarm_type := a.alarm_type
  code := a.code
  level := a.level
  extra := a.extra
  status := a.status
  first_triggered_at := some a.first_triggered_at
  last_triggered_at := a.last_triggered_at
  repeat_count := a.repeat_count
  remark := a.remark
  confirmed_at := a.confirmed_at
  confirmed_by := a.confirmed_by
  cleared_at := a.cleared_at
  cleared_by := a.cleared_by

/-- `ALARM_UPSERT_SQL` semantics (src/ingestor/main.py 171-188): insert,
    and on conflict with `(device_id, alarm_type, code, status)` refresh
    `last_triggered_at`, bump `repeat_count` by one, and overwrite
    `level` / `extra` / `remark`. -/
def alarmUpsert (tbl : List AlarmRow) (newId : Int) (a : Alarm) : List AlarmRow :=
  if tbl.any (alarmConflicts a) then
    tbl.map (fun r =>
      if alarmConflicts a r then
        { r with last_triggered_at := a.last_triggered_at,
                 repeat_count := r.repeat_count + 1,
                 level := a.level, extra := a.extra, remark := a.remark }
      else r)
  else tbl ++ [insertedAlarmRow newId a]

/-- A row of the append-only `alarm_history` archive table. -/
structure AlarmHistoryRow where
  device_id : Int
  alarm_type : String
  code : Int
  level : String
  extra : String
  status : String
  first_triggered_at : Option Int
  last_triggered_at : Int
  repeat_count : Int
  remark : Option String
  confirmed_at : Option Int
  confirmed_by : Option String
  cleared_at : Option Int
  cleared_by : Option String
  archived_at : Int
  duration : Option Int
deriving DecidableEq, Repr

/-- A row of `device_rpc_change_log` as touched by `RPC_ACK_UPDATE_SQL`. -/
structure RpcLogRow where
  request_id : String
  device_id : Int
  status : String
  confirmed_at : Option Int
deriving DecidableEq, Repr

/-- `(SELECT id FROM devices WHERE device_sn=%(device_sn)s)`: the id of
    the first device row carrying the serial, if any. -/
def lookupDeviceId (devs : List DeviceRow) (sn : String) : Option Int :=
  (List.find? (fun d => d.device_sn == sn) devs).map (fun d => d.id)

/-- `RPC_ACK_UPDATE_SQL` semantics (src/ingestor/main.py 208-214): set
    `status` and stamp `confirmed_at` on exactly the rows matching
    `(request_id, device)` that are currently `"pending"`; when the serial
    resolves to no device the subselect is NULL and no row matches. -/
def rpc_ack_update (devs : List DeviceRow) (now : Int)
    (tbl : List RpcLogRow) (ack : RpcAck) : List RpcLogRow :=
  match lookupDeviceId devs ack.device_sn with
  | none => tbl
  | some did =>
    tbl.map (fun r =>
      if r.request_id == ack.request_id && r.device_id == did &&
         r.status == "pending" then
        { r with status := ack.status, confirmed_at := some now }
      else r)

/-! ## The database and the per-batch flusher transactions -/

/-- The relational store as the ingestion core sees it. -/
structure DB where
  devices : List DeviceRow
  ess_realtime_data : List TelemetryRow
  history_energy : List HistoryRec
  alarms : List AlarmRow
  alarm_next_id : Int
  alarm_history : List AlarmHistoryRow
  device_rpc_change_log : List RpcLogRow
deriving Repr

/-- The transaction body of one telemetry batch (src/ingestor/main.py
    679-682): `ensure_devices_exist` for every referenced id, then the
    telemetry upsert for each record; the insert aborts the transaction
    with a foreign-key error if a record references a device missing from
    the table as left by the ensure step. -/
def flusherBatchTxn (now : Int) (db : DB)
    (batch : List (List (String × Int))) : Except String DB :=
  if batch.all (fun r =>
      fkOk (ensure_devices_exist db.devices (batch.map recDeviceId))
        (recDeviceId r)) then
    Except.ok { db with
      devices := ensure_devices_exist db.devices (batch.map recDeviceId),
      ess_realtime_data :=
        batch.foldl (fun t r => telemetryUpsert t now r) db.ess_realtime_data }
  else Except.error "ForeignKeyViolation"

/-- The transaction body of one history batch (src/ingestor/main.py
    720-723): `ensure_devices_exist` then the history upsert per record. -/
def historyFlusherBatchTxn (db : DB) (batch : List HistoryRec) :
    Except String DB :=
  if batch.all (fun r =>
      fkOk (ensure_devices_exist db.devices (batch.map (fun x => x.device_id)))
        r.device_id) then
    Except.ok { db with
      devices :=
        ensure_devices_exist db.devices (batch.map (fun x => x.device_id)),
      history_energy := batch.foldl historyUpsert db.history_energy }
  else Except.error "ForeignKeyViolation"

/-- The transaction body of one alarm batch (src/ingestor/main.py
    748-752): the alarm upsert per record and nothing else — the alarm
    flusher performs no device-existence step before its write. -/
def alarmFlusherBatchTxn (db : DB) (batch : List Alarm) : Except String DB :=
  if batch.all (fun a => fkOk db.devices a.device_id) then
    Except.ok { db with
      alarms :=
        (batch.foldl (fun acc a => (alarmUpsert acc.1 acc.2 a, acc.2 + 1))
          (db.alarms, db.alarm_next_id)).1,
      alarm_next_id := db.alarm_next_id + batch.length }
  else Except.error "ForeignKeyViolation"

/-- The transaction body of one acknowledgment batch (src/ingestor/main.py
    816-819): the conditional update per record; it can touch only
    existing rows, so it has no failure mode in this model. -/
def rpcAckFlusherBatchTxn (now : Int) (db : DB) (batch : List RpcAck) : DB :=
  { db with
    device_rpc_change_log :=
      batch.foldl (rpc_ack_update db.devices now) db.device_rpc_change_log }

/-- The inner loop of a batch flusher (src/ingestor/main.py 669-686),
    abstracted over the per-batch transaction `write`: each collected
    batch is attempted once; on success the new state is kept ("commit"),
    on failure the state is left as before the batch ("rollback"), an
    error line is logged, and the loop moves on to the next batch — the
    failed batch is never requeued.  Returns the final state and the log
    lines. -/
def flusherStep (write : σ → β → Except String σ)
    (acc : σ × List String) (b : β) : σ × List String :=
  match write acc.1 b with
  | Except.ok db2 => (db2, acc.2)
  | Except.error e => (acc.1, acc.2 ++ ["[flusher] DB error: " ++ e])

/-- Running the flusher loop over a list of collected batches. -/
def flusherRun (write : σ → β → Except String σ) (db : σ)
    (batches : List β) : σ × List String :=
  batches.foldl (flusherStep write) (db, [])

/-! ## The alarm archiver (archive_alarm_worker) -/

/-- The WHERE clause of the archiver's lookup (src/ingestor/main.py line
    850): same `(device_id, alarm_type, code)` as the incoming alarm and
    status not `"cleared"`. -/
def archiveMatches (a : Alarm) (r : AlarmRow) : Bool :=
  r.device_id == a.device_id && r.alarm_type == a.alarm_type &&
  r.code == a.code && !(r.status == "cleared")

/-- Running maximum by `last_triggered_at` (first row wins a tie). -/
def pickLatest (acc : Option AlarmRow) (r : AlarmRow) : Option AlarmRow :=
  match acc with
  | none => some r
  | some m => if m.last_triggered_at < r.last_triggered_at then some r else some m

/-- `SELECT ... ORDER BY last_triggered_at DESC LIMIT 1`: among matching
    non-cleared rows, one with the maximal `last_triggered_at` (the first
    such row in table order when tied; SQL leaves the tie unspecified). -/
def selectLiveAlarm (tbl : List AlarmRow) (a : Alarm) : Option AlarmRow :=
  (tbl.filter (archiveMatches a)).foldl pickLatest none

/-- `duration = (cleared_at - first_triggered_at) if cleared_at and
    first_triggered_at else None` (src/ingestor/main.py line 857): the
    plain difference, NULL when either timestamp is missing. -/
def archiveDuration (a : Alarm) (row : AlarmRow) : Option Int :=
  match a.cleared_at, row.first_triggered_at with
  | some c, some f => some (c - f)
  | _, _ => none

/-- The `alarm_history` row the archiver inserts (src/ingestor/main.py
    858-878): every original column of the live row, status forced to
    `"cleared"`, `cleared_at` / `cleared_by` from the incoming message,
    `archived_at = now()`, and the computed duration. -/
def archivedHistoryRow (now : Int) (a : Alarm) (row : AlarmRow) :
    AlarmHistoryRow where
  device_id := row.device_id
  alarm_type := row.alarm_type
  code := row.code
  level := row.level
  extra := row.extra
  status := "cleared"
  first_triggered_at := row.first_triggered_at
  last_triggered_at := row.last_triggered_at
  repeat_count := row.repeat_count
  remark := row.remark
  confirmed_at := row.confirmed_at
  confirmed_by := row.confirmed_by
  cleared_at := a.cleared_at
  cleared_by := a.cleared_by
  archived_at := now
  duration := archiveDuration a row

/-- One iteration of `archive_alarm_worker` on a dequeued alarm
    (src/ingestor/main.py 848-882): look up the most recent non-cleared
    live row for the key; if none, do nothing; if found, insert the
    history row and delete the live row by id, both inside the one
    transaction committed at line 882. -/
def archive_alarm_step (now : Int) (db : DB) (a : Alarm) : DB :=
  match selectLiveAlarm db.alarms a with
  | none => db
  | some row =>
      { db with
        alarms := db.alarms.filter (fun r => !(r.id == row.id)),
        alarm_history := db.alarm_history ++ [archivedHistoryRow now a row] }

/-! ## Helper lemmas -/

/-- The per-field value `normalize` assigns to a key of `FIELDS`. -/
def normField (sn : Int) (payload : Payload) (k : String) : Int :=
  if k = "device_id" then sn
  else if k = "soc" then to_int (payload.get "soc") 0
  else if k = "soh" then to_int (payload.get "soh") 100
  else to_int (payload.get k) 0

lemma normalize_eq_map (sn : Int) (p : Payload) :
    normalize sn p = FIELDS.map (fun k => (k, normField sn p k)) := by
  unfold normalize normField
  apply List.map_congr_left
  intro k _
  by_cases h1 : k = "device_id"
  · simp [h1]
  · by_cases h2 : k = "soc"
    · simp [h1, h2]
    · by_cases h3 : k = "soh" <;> simp [h1, h2, h3]

lemma lookupField_map_self (g : String → Int) (l : List String) (k : String) :
    lookupField (l.map (fun x => (x, g x))) k
      = if k ∈ l then some (g k) else none := by
  induction l with
  | nil => simp [lookupField]
  | cons a l ih =>
    by_cases h : a = k
    · subst h
      simp [lookupField, List.find?]
    · unfold lookupField at ih ⊢
      rw [List.map_cons, List.find?]
      have hbeq : (a == k) = false := by
        simp [h]
      simp only [hbeq]
      rw [ih]
      simp [List.mem_cons, h, Ne.symm h]

lemma lookupField_normalize (sn : Int) (p : Payload) (k : String)
    (hk : k ∈ FIELDS) :
    lookupField (normalize sn p) k = some (normField sn p k) := by
  rw [normalize_eq_map, lookupField_map_self, if_pos hk]

/-! ## Claim C9 -/

/-- The end-to-end example payload of spec section 8. -/
def c9payload : Payload :=
  [("soc", Value.vnum 55), ("pv", Value.vnum 1200), ("load", Value.vnum 900)]

/-- C9: realtime normalization always produces a record with exactly the
    `FIELDS` key set; every numeric field other than `device_id` and `soh`
    that is missing or non-numeric defaults to 0; a missing `soh` defaults
    to 100; and the payload soc 55 / pv 1200 / load 900 for device 7
    normalizes to soc 55, pv 1200, load 900, soh 100. -/
theorem normalize_fixed_shape_and_defaults :
    (∀ sn p, (normalize sn p).map Prod.fst = FIELDS)
    ∧ (∀ sn p k, k ∈ FIELDS → k ≠ "device_id" → k ≠ "soh" →
        (p.get k = none ∨ p.get k = some Value.vnull ∨ p.get k = some Value.vobj ∨
          (∃ s, p.get k = some (Value.vstr s) ∧ s.toInt? = none)) →
        lookupField (normalize sn p) k = some 0)
    ∧ (∀ sn p, p.get "soh" = none → lookupField (normalize sn p) "soh" = some 100)
    ∧ (lookupField (normalize 7 c9payload) "soc" = some 55
        ∧ lookupField (normalize 7 c9payload) "pv" = some 1200
        ∧ lookupField (normalize 7 c9payload) "load" = some 900
        ∧ lookupField (normalize 7 c9payload) "soh" = some 100
        ∧ lookupField (normalize 7 c9payload) "device_id" = some 7) := by
  refine ⟨?_, ?_, ?_, ?_⟩
  · intro sn p
    rw [normalize_eq_map, List.map_map]
    have hcomp : (Prod.fst ∘ fun k => (k, normField sn p k)) = id := rfl
    rw [hcomp, List.map_id]
  · intro sn p k hk h1 h3 hv
    rw [lookupField_normalize sn p k hk]
    have hval : normField sn p k = to_int (p.get k) 0 := by
      unfold normField
      rw [if_neg h1]
      by_cases h2 : k = "soc"
      · subst h2
        rw [if_pos rfl]
      · rw [if_neg h2, if_neg h3]
    rw [hval]
    rcases hv with h | h | h | ⟨s, hs, hts⟩ <;> simp [to_int, *]
  · intro sn p h
    have hk : "soh" ∈ FIELDS := by decide
    rw [lookupField_normalize sn p _ hk]
    unfold normField
    norm_num
    simp [h, to_int]
  · exact ⟨rfl, rfl, rfl, rfl, rfl⟩

/-- C9 witness: concrete instantiation of the default-to-0 clause at the
    empty payload and field pv. -/
theorem normalize_fixed_shape_and_defaults_witness :
    ("pv" ∈ FIELDS ∧ Payload.get [] "pv" = none)
    ∧ lookupField (normalize 0 []) "pv" = some 0 :=
  ⟨⟨by decide, rfl⟩,
    normalize_fixed_shape_and_defaults.2.1 0 [] "pv" (by decide) (by decide)
      (by decide) (Or.inl rfl)⟩

/-! ## Claim C1 -/

/-- A live alarm row, first triggered at time 100, still active. -/
def c1row : AlarmRow where
  id := 1
  device_id := 1
  alarm_type := "system"
  code := 1001
  level := "minor"
  extra := "\x7b\x7d"
  status := "active"
  first_triggered_at := some 100
  last_triggered_at := 100
  repeat_count := 1
  remark := none
  confirmed_at := none
  confirmed_by := none
  cleared_at := none
  cleared_by := none

/-- A store holding exactly that live alarm. -/
def c1db : DB where
  devices := [{ id := 1, device_sn := "SN0001" }]
  ess_realtime_data := []
  history_energy := []
  alarms := [c1row]
  alarm_next_id := 2
  alarm_history := []
  device_rpc_change_log := []

/-- A clear message for the same key, cleared at time 100 — zero
    time-units after the first trigger. -/
def c1alarm : Alarm :=
  normalizeAlarm 1 100
    { alarm_type := some "system", code := some 1001, level := some "minor",
      status := some "cleared", cleared_at := some 100 }

/-- C1: the spec requires the archived duration to be
    `max(1, cleared_at − first_triggered_at)`, but `archive_alarm_worker`
    stores the raw difference with no floor: an alarm cleared 0 time-units
    after its first trigger is archived with duration 0, not
    `max 1 0 = 1`.  (The sibling manual-archive path in src/api, writing
    the same history table, does apply the `max(1, ...)` floor.) -/
theorem archive_duration_not_floored :
    should_archive c1alarm = true
    ∧ (archive_alarm_step 200 c1db c1alarm).alarm_history.map
        (fun h => h.duration) = [some 0]
    ∧ some (0 : Int) ≠ some (max 1 ((100 : Int) - 100)) := by
  refine ⟨by decide, by decide, by decide⟩

/-! ## Queue helper lemmas -/

lemma put_nowait_not_full (q : BQueue α) (x : α) (h : q.isFull = false) :
    q.put_nowait x = Except.ok { q with items := q.items ++ [x] } := by
  unfold BQueue.put_nowait
  unfold BQueue.isFull at h
  rw [if_neg (of_decide_eq_false h)]

lemma put_nowait_full (q : BQueue α) (x : α) (h : q.isFull = true) :
    q.put_nowait x = Except.error "Full" := by
  unfold BQueue.put_nowait
  unfold BQueue.isFull at h
  rw [if_pos (of_decide_eq_true h)]

lemma routeAlarm_archive_iff_should (a : Alarm) :
    routeAlarm a = Route.archive ↔ should_archive a = true := by
  unfold routeAlarm
  cases h : should_archive a <;> simp [h]

lemma should_archive_iff (a : Alarm) :
    should_archive a = true ↔
      ((a.level = "critical" ∧ a.status = "cleared" ∧ a.confirmed_at.isSome = true)
        ∨ (a.level ≠ "critical" ∧ a.status = "cleared")) := by
  unfold should_archive
  by_cases hc : a.level = "critical"
  · simp [hc]
  · have hbeq : (a.level == "critical") = false := by
      simp [hc]
    simp [hbeq, hc]

lemma should_archive_status (a : Alarm) (h : should_archive a = true) :
    a.status = "cleared" := by
  rcases (should_archive_iff a).mp h with ⟨_, h2, _⟩ | ⟨_, h2⟩ <;> exact h2

/-! ## Claim C4 -/

/-- C4: an alarm record is routed to the archiver queue exactly when it is
    critical, cleared, and carries a confirmation timestamp, or
    non-critical and cleared; and with room in the queues the enqueue
    lands on exactly the selected queue, leaving the other untouched. -/
theorem alarm_archival_routing (now sn : Int) (p : AlarmPayload) :
    (routeAlarm (normalizeAlarm sn now p) = Route.archive ↔
      (((normalizeAlarm sn now p).level = "critical"
          ∧ (normalizeAlarm sn now p).status = "cleared"
          ∧ ((normalizeAlarm sn now p).confirmed_at).isSome = true)
        ∨ ((normalizeAlarm sn now p).level ≠ "critical"
          ∧ (normalizeAlarm sn now p).status = "cleared")))
    ∧ (∀ st : RouterState,
        st.archive_alarm_q.isFull = false → st.alarm_q.isFull = false →
        (routeAlarm (normalizeAlarm sn now p) = Route.archive →
          (onAlarmMessage st now sn p).1
            = { st with archive_alarm_q :=
                  { items := st.archive_alarm_q.items ++ [normalizeAlarm sn now p],
                    maxsize := st.archive_alarm_q.maxsize } })
        ∧ (routeAlarm (normalizeAlarm sn now p) = Route.alarmQueue →
          (onAlarmMessage st now sn p).1
            = { st with alarm_q :=
                  { items := st.alarm_q.items ++ [normalizeAlarm sn now p],
                    maxsize := st.alarm_q.maxsize } })) := by
  constructor
  · rw [routeAlarm_archive_iff_should]
    exact should_archive_iff (normalizeAlarm sn now p)
  · intro st harch halarm
    constructor
    · intro hroute
      have hsa : should_archive (normalizeAlarm sn now p) = true :=
        (routeAlarm_archive_iff_should _).mp hroute
      unfold onAlarmMessage
      rw [if_pos hsa, put_nowait_not_full _ _ harch]
    · intro hroute
      have hsa : should_archive (normalizeAlarm sn now p) = false := by
        cases h : should_archive (normalizeAlarm sn now p)
        · rfl
        · exfalso
          rw [(routeAlarm_archive_iff_should _).mpr h] at hroute
          exact Route.noConfusion hroute
      unfold onAlarmMessage
      rw [if_neg (by simp [hsa]), put_nowait_not_full _ _ halarm]

/-- C4 witness: a cleared minor alarm with room in both queues is routed
    to the archiver queue. -/
theorem alarm_archival_routing_witness :
    (routeAlarm (normalizeAlarm 1 50
        { alarm_type := some "system", code := some 7, level := some "minor",
          status := some "cleared" }) = Route.archive)
    ∧ (onAlarmMessage
        { q := { items := [], maxsize := 4 },
          history_q := { items := [], maxsize := 4 },
          alarm_q := { items := [], maxsize := 4 },
          para_q := { items := [], maxsize := 4 },
          rpc_ack_q := { items := [], maxsize := 4 },
          archive_alarm_q := { items := [], maxsize := 4 } } 50 1
        { alarm_type := some "system", code := some 7, level := some "minor",
          status := some "cleared" }).1.archive_alarm_q.items
      = [normalizeAlarm 1 50
          { alarm_type := some "system", code := some 7, level := some "minor",
            status := some "cleared" }] := by
  refine ⟨by decide, ?_⟩
  rw [((alarm_archival_routing 50 1
      { alarm_type := some "system", code := some 7, level := some "minor",
        status := some "cleared" }).2
      { q := { items := [], maxsize := 4 },
        history_q := { items := [], maxsize := 4 },
        alarm_q := { items := [], maxsize := 4 },
        para_q := { items := [], maxsize := 4 },
        rpc_ack_q := { items := [], maxsize := 4 },
        archive_alarm_q := { items := [], maxsize := 4 } }
      (by decide) (by decide)).1 (by decide)]
  rfl

/-! ## Claim C10 -/

/-- C10: the router backfills missing lifecycle timestamps at receipt
    time: a cleared payload without `cleared_at` gets `cleared_at = now`;
    a payload carrying status "confirmed" or a truthy `confirmed_by`
    without `confirmed_at` gets `confirmed_at = now`; every record routed
    to the archiver queue carries a non-null `cleared_at`; and a cleared
    critical alarm reporting only `confirmed_by` is archivable. -/
theorem alarm_timestamp_backfill (sn now : Int) (p : AlarmPayload) :
    (p.status = some "cleared" → p.cleared_at = none →
        (normalizeAlarm sn now p).cleared_at = some now)
    ∧ ((p.status = some "confirmed" ∨ truthyStr p.confirmed_by = true) →
        p.confirmed_at = none →
        (normalizeAlarm sn now p).confirmed_at = some now)
    ∧ (routeAlarm (normalizeAlarm sn now p) = Route.archive →
        ((normalizeAlarm sn now p).cleared_at).isSome = true)
    ∧ (p.level = some "critical" → p.status = some "cleared" →
        truthyStr p.confirmed_by = true →
        should_archive (normalizeAlarm sn now p) = true) := by
  refine ⟨?_, ?_, ?_, ?_⟩
  · intro hst hca
    simp [normalizeAlarm, hca, hst]
  · intro hcb hca
    rcases hcb with h | h
    · simp [normalizeAlarm, hca, h]
    · simp [normalizeAlarm, hca, h]
  · intro hroute
    have hsa := (routeAlarm_archive_iff_should _).mp hroute
    have hst : (normalizeAlarm sn now p).status = "cleared" :=
      should_archive_status _ hsa
    have hp : p.status = some "cleared" := by
      cases h : p.status with
      | none =>
        exfalso
        have hact : (normalizeAlarm sn now p).status = "active" := by
          simp [normalizeAlarm, h]
        exact absurd (hact.symm.trans hst) (by decide)
      | some s =>
        have hs : (normalizeAlarm sn now p).status = s := by
          simp [normalizeAlarm, h]
        rw [hs.symm.trans hst]
    cases h : p.cleared_at with
    | some t => simp [normalizeAlarm, h]
    | none => simp [normalizeAlarm, h, hp]
  · intro hl hst hcb
    rw [should_archive_iff]
    left
    refine ⟨by simp [normalizeAlarm, hl], by simp [normalizeAlarm, hst], ?_⟩
    cases h : p.confirmed_at with
    | some t => simp [normalizeAlarm, h]
    | none => simp [normalizeAlarm, h, hcb]

/-- The payload of the C10 witness: cleared critical alarm reporting a
    confirmer but neither lifecycle timestamp. -/
def c10p : AlarmPayload :=
  { level := some "critical", status := some "cleared",
    confirmed_by := some "op" }

/-- C10 witness: the backfill clauses at a concrete payload. -/
theorem alarm_timestamp_backfill_witness :
    (c10p.status = some "cleared" ∧ c10p.cleared_at = none)
    ∧ (normalizeAlarm 3 77 c10p).cleared_at = some 77
    ∧ should_archive (normalizeAlarm 3 77 c10p) = true :=
  ⟨⟨rfl, rfl⟩, (alarm_timestamp_backfill 3 77 c10p).1 rfl rfl,
    (alarm_timestamp_backfill 3 77 c10p).2.2.2 rfl rfl (by decide)⟩

/-! ## Claim C7 -/

/-- C7: enqueue from the router is non-blocking — for each of the five
    per-class stream queues (realtime, history, alarm, para, rpc_ack) and
    the archiver queue, when the target queue is at capacity the message
    is dropped: the router state is unchanged (the record reaches no
    queue, and storage is only written from the queues), the drop is
    logged by the callback's exception handler, and the callback returns
    normally instead of raising. -/
theorem full_queue_drops_message (st : RouterState) (sn now : Int)
    (sns : String) (payload : Payload) (hp : HistoryPayload)
    (p : AlarmPayload) (rp : RpcAckPayload) :
    (st.q.isFull = true →
        onRealtimeMessage st sn payload = (st, ["[on_message] error: Full"]))
    ∧ (st.history_q.isFull = true →
        onHistoryMessage st sn hp = (st, ["[on_message] error: Full"]))
    ∧ (st.alarm_q.isFull = true →
        should_archive (normalizeAlarm sn now p) = false →
        onAlarmMessage st now sn p = (st, ["[on_message] error: Full"]))
    ∧ (st.archive_alarm_q.isFull = true →
        should_archive (normalizeAlarm sn now p) = true →
        onAlarmMessage st now sn p = (st, ["[on_message] error: Full"]))
    ∧ (st.para_q.isFull = true →
        onParaMessage st now sn payload = (st, ["[on_message] error: Full"]))
    ∧ (st.rpc_ack_q.isFull = true → truthyStr rp.response_id = true →
        onRpcAckMessage st sns rp = (st, ["[on_message] error: Full"])) := by
  refine ⟨?_, ?_, ?_, ?_, ?_, ?_⟩
  · intro h
    unfold onRealtimeMessage
    rw [put_nowait_full _ _ h]
    rfl
  · intro h
    unfold onHistoryMessage
    rw [put_nowait_full _ _ h]
    rfl
  · intro h hsa
    unfold onAlarmMessage
    rw [if_neg (by simp [hsa]), put_nowait_full _ _ h]
    rfl
  · intro h hsa
    unfold onAlarmMessage
    rw [if_pos hsa, put_nowait_full _ _ h]
    rfl
  · intro h
    unfold onParaMessage
    rw [put_nowait_full _ _ h]
    rfl
  · intro h htr
    unfold onRpcAckMessage
    rw [if_pos htr, put_nowait_full _ _ h]
    rfl

/-- A router state with every queue at capacity. -/
def c7full : RouterState :=
  { q := { items := [normalize 1 []], maxsize := 1 },
    history_q := { items := [normalize_history 1 {}], maxsize := 1 },
    alarm_q := { items := [normalizeAlarm 1 0 {}], maxsize := 1 },
    para_q := { items := [normalizePara 1 0 []], maxsize := 1 },
    rpc_ack_q := { items := [normalizeRpcAck "1" { response_id := some "r0" }],
                   maxsize := 1 },
    archive_alarm_q := { items := [normalizeAlarm 1 0 {}], maxsize := 1 } }

/-- An archivable payload (minor, cleared) for the archiver-queue drop. -/
def c7archp : AlarmPayload :=
  { alarm_type := some "system", code := some 7, level := some "minor",
    status := some "cleared" }

/-- C7 witness: with every queue at capacity, one more message of each
    class is dropped with the state unchanged and the event logged. -/
theorem full_queue_drops_message_witness :
    (c7full.q.isFull = true ∧ c7full.history_q.isFull = true
      ∧ c7full.alarm_q.isFull = true ∧ c7full.para_q.isFull = true
      ∧ c7full.rpc_ack_q.isFull = true ∧ c7full.archive_alarm_q.isFull = true)
    ∧ onRealtimeMessage c7full 2 [] = (c7full, ["[on_message] error: Full"])
    ∧ onHistoryMessage c7full 2 {} = (c7full, ["[on_message] error: Full"])
    ∧ onAlarmMessage c7full 5 2 {} = (c7full, ["[on_message] error: Full"])
    ∧ onAlarmMessage c7full 5 2 c7archp = (c7full, ["[on_message] error: Full"])
    ∧ onParaMessage c7full 5 2 [] = (c7full, ["[on_message] error: Full"])
    ∧ onRpcAckMessage c7full "2" { response_id := some "r1" }
        = (c7full, ["[on_message] error: Full"]) :=
  ⟨⟨by decide, by decide, by decide, by decide, by decide, by decide⟩,
   (full_queue_drops_message c7full 2 5 "2" [] {} {}
      { response_id := some "r1" }).1 (by decide),
   (full_queue_drops_message c7full 2 5 "2" [] {} {}
      { response_id := some "r1" }).2.1 (by decide),
   (full_queue_drops_message c7full 2 5 "2" [] {} {}
      { response_id := some "r1" }).2.2.1 (by decide) (by decide),
   (full_queue_drops_message c7full 2 5 "2" [] {} c7archp
      { response_id := some "r1" }).2.2.2.1 (by decide) (by decide),
   (full_queue_drops_message c7full 2 5 "2" [] {} {}
      { response_id := some "r1" }).2.2.2.2.1 (by decide),
   (full_queue_drops_message c7full 2 5 "2" [] {} {}
      { response_id := some "r1" }).2.2.2.2.2 (by decide) (by decide)⟩

/-! ## Claim C2 -/

/-- An ordinary trigger payload for (type "system", code 1001); status
    defaults to "active". -/
def c2trigger : AlarmPayload :=
  { alarm_type := some "system", code := some 1001, level := some "major" }

/-- The same alarm reported with lifecycle status "confirmed". -/
def c2confirmed : AlarmPayload :=
  { alarm_type := some "system", code := some 1001, level := some "major",
    status := some "confirmed", confirmed_by := some "op" }

/-- The live table after the alarm flusher upserts a trigger (t = 10), a
    confirmed-status report (t = 20), and a re-trigger (t = 30), all for
    device 1, type "system", code 1001, none of them cleared. -/
def c2table : List AlarmRow :=
  (([normalizeAlarm 1 10 c2trigger, normalizeAlarm 1 20 c2confirmed,
     normalizeAlarm 1 30 c2trigger].foldl
      (fun acc a => (alarmUpsert acc.1 acc.2 a, acc.2 + 1))
      (([] : List AlarmRow), 1))).1

/-- C2 counterexample: the conflict target of `ALARM_UPSERT_SQL` includes
    `status`, so re-triggering a still-live (device, type, code) does not
    always fold into one row: after trigger / confirmed-report /
    re-trigger the table holds TWO live rows for the same
    (device 1, "system", 1001), the re-trigger bumped only the active row
    to repeat_count 2, and no row reached repeat count 3. -/
theorem alarm_unique_key_counterexample :
    c2table.map (fun r => (r.device_id, r.alarm_type, r.code))
      = [(1, "system", 1001), (1, "system", 1001)]
    ∧ c2table.map (fun r => (r.status, r.repeat_count, r.last_triggered_at))
      = [("active", 2, 30), ("confirmed", 1, 20)] :=
  ⟨by decide, by decide⟩

/-- C2 amended: the upsert key of `ALARM_UPSERT_SQL` is (device, alarm
    type, code, STATUS).  Re-triggers carrying the same lifecycle status
    as the live row update that single row — incrementing `repeat_count`
    and refreshing `last_triggered_at` — so three same-status triggers of
    one (device, type, code) yield exactly one live row with
    `repeat_count` 3 and `last_triggered_at` equal to the third trigger
    time; a report whose status differs from every live row's inserts a
    separate row instead. -/
theorem alarm_upsert_key_includes_status
    (a1 a2 a3 : Alarm) (i1 i2 i3 : Int)
    (h2d : a2.device_id = a1.device_id) (h2t : a2.alarm_type = a1.alarm_type)
    (h2c : a2.code = a1.code) (h2s : a2.status = a1.status)
    (h3d : a3.device_id = a1.device_id) (h3t : a3.alarm_type = a1.alarm_type)
    (h3c : a3.code = a1.code) (h3s : a3.status = a1.status)
    (hr : a1.repeat_count = 1) :
    (alarmUpsert (alarmUpsert (alarmUpsert [] i1 a1) i2 a2) i3 a3).map
        (fun r => (r.device_id, r.alarm_type, r.code, r.repeat_count,
                   r.last_triggered_at))
      = [(a1.device_id, a1.alarm_type, a1.code, 3, a3.last_triggered_at)] := by
  simp [alarmUpsert, alarmConflicts, insertedAlarmRow, List.any,
    h2d, h2t, h2c, h2s, h3d, h3t, h3c, h3s, hr]

/-- C2 witness: three plain triggers of the same alarm at times 10, 20,
    30 leave one live row with repeat count 3 and last trigger time 30. -/
theorem alarm_upsert_key_includes_status_witness :
    (alarmUpsert (alarmUpsert (alarmUpsert [] 1 (normalizeAlarm 1 10 c2trigger))
        2 (normalizeAlarm 1 20 c2trigger)) 3 (normalizeAlarm 1 30 c2trigger)).map
        (fun r => (r.device_id, r.alarm_type, r.code, r.repeat_count,
                   r.last_triggered_at))
      = [(1, "system", 1001, 3, 30)] :=
  alarm_upsert_key_includes_status (normalizeAlarm 1 10 c2trigger)
    (normalizeAlarm 1 20 c2trigger) (normalizeAlarm 1 30 c2trigger)
    1 2 3 rfl rfl rfl rfl rfl rfl rfl rfl rfl

/-! ## Claim C5 -/

lemma map_self_of_eq (l : List α) (f : α → α) (h : ∀ a ∈ l, f a = a) :
    l.map f = l := by
  induction l with
  | nil => rfl
  | cons x xs ih =>
    rw [List.map_cons, h x (List.mem_cons_self x xs),
      ih (fun a ha => h a (List.mem_cons_of_mem x ha))]

lemma rpc_ack_update_noop (devs : List DeviceRow) (now : Int)
    (tbl : List RpcLogRow) (ack : RpcAck)
    (h : ∀ r ∈ tbl, r.request_id = ack.request_id →
        lookupDeviceId devs ack.device_sn = some r.device_id →
        r.status ≠ "pending") :
    rpc_ack_update devs now tbl ack = tbl := by
  unfold rpc_ack_update
  cases hd : lookupDeviceId devs ack.device_sn with
  | none => rfl
  | some did =>
    apply map_self_of_eq
    intro r hr
    rw [if_neg]
    intro hcond
    simp only [Bool.and_eq_true, beq_iff_eq] at hcond
    obtain ⟨⟨hreq, hdev⟩, hpend⟩ := hcond
    exact h r hr hreq (by rw [hd, hdev]) hpend

/-- C5: `RPC_ACK_UPDATE_SQL` only transitions rows currently in "pending"
    status, identified by (request id, device); an acknowledgment with no
    matching pending row leaves the table unchanged; in particular, of two
    acknowledgments for the same (request id, device) where the first
    transitions "pending" to "success", the second is a no-op and the
    table stays exactly as the first left it. -/
theorem rpc_ack_pending_only
    (devs : List DeviceRow) (tbl : List RpcLogRow) (a1 a2 : RpcAck)
    (t1 t2 : Int)
    (hreq : a2.request_id = a1.request_id) (hsn : a2.device_sn = a1.device_sn)
    (h1 : a1.status = "success") :
    (∀ ack now, (∀ r ∈ tbl, r.request_id = ack.request_id →
          lookupDeviceId devs ack.device_sn = some r.device_id →
          r.status ≠ "pending") →
        rpc_ack_update devs now tbl ack = tbl)
    ∧ rpc_ack_update devs t2 (rpc_ack_update devs t1 tbl a1) a2
        = rpc_ack_update devs t1 tbl a1 := by
  constructor
  · intro ack now h
    exact rpc_ack_update_noop devs now tbl ack h
  · apply rpc_ack_update_noop
    intro r hr hreq2 hdev2
    rw [hsn] at hdev2
    unfold rpc_ack_update at hr
    cases hd : lookupDeviceId devs a1.device_sn with
    | none =>
      rw [hd] at hdev2
      exact absurd hdev2 (by simp)
    | some did =>
      rw [hd] at hr hdev2
      have hdid : did = r.device_id := Option.some.inj hdev2
      obtain ⟨r0, hr0, hfr⟩ := List.mem_map.mp hr
      by_cases hc : (r0.request_id == a1.request_id && r0.device_id == did &&
          r0.status == "pending") = true
      · rw [if_pos hc] at hfr
        subst hfr
        intro habs
        exact absurd (h1.symm.trans habs) (by decide)
      · rw [if_neg hc] at hfr
        subst hfr
        intro hpend
        apply hc
        simp only [Bool.and_eq_true, beq_iff_eq]
        exact ⟨⟨hreq2.trans hreq, hdid.symm⟩, hpend⟩

/-- The device, pending command-log row, and acknowledgment of the C5
    witness. -/
def c5devs : List DeviceRow := [{ id := 1, device_sn := "SN0001" }]

/-- A single pending command-log row. -/
def c5tbl : List RpcLogRow :=
  [{ request_id := "req1", device_id := 1, status := "pending",
     confirmed_at := none }]

/-- A success acknowledgment for that request. -/
def c5ack : RpcAck :=
  { device_sn := "SN0001", request_id := "req1", status := "success" }

/-- C5 witness: the first acknowledgment transitions the row to
    "success"; a duplicate acknowledgment is a no-op. -/
theorem rpc_ack_pending_only_witness :
    rpc_ack_update c5devs 10 c5tbl c5ack
      = [{ request_id := "req1", device_id := 1, status := "success",
           confirmed_at := some 10 }]
    ∧ rpc_ack_update c5devs 20 (rpc_ack_update c5devs 10 c5tbl c5ack) c5ack
      = rpc_ack_update c5devs 10 c5tbl c5ack :=
  ⟨by decide, (rpc_ack_pending_only c5devs c5tbl c5ack c5ack 10 20
      rfl rfl rfl).2⟩

/-! ## Claim C8 -/

lemma foldl_pickLatest_isSome (l : List AlarmRow) :
    ∀ m : AlarmRow, ∃ x, l.foldl pickLatest (some m) = some x := by
  induction l with
  | nil => intro m; exact ⟨m, rfl⟩
  | cons a l ih =>
    intro m
    rw [List.foldl_cons]
    by_cases h : m.last_triggered_at < a.last_triggered_at
    · rw [show pickLatest (some m) a = some a by simp [pickLatest, h]]
      exact ih a
    · rw [show pickLatest (some m) a = some m by simp [pickLatest, h]]
      exact ih m

lemma foldl_pickLatest_mem (l : List AlarmRow) :
    ∀ (acc : Option AlarmRow) (m : AlarmRow),
      l.foldl pickLatest acc = some m → m ∈ l ∨ acc = some m := by
  induction l with
  | nil => intro acc m h; exact Or.inr h
  | cons a l ih =>
    intro acc m h
    rw [List.foldl_cons] at h
    rcases ih (pickLatest acc a) m h with hmem | heq
    · exact Or.inl (List.mem_cons_of_mem a hmem)
    · cases acc with
      | none =>
        exact Or.inl ((Option.some.inj heq) ▸ List.mem_cons_self a l)
      | some m0 =>
        by_cases hlt : m0.last_triggered_at < a.last_triggered_at
        · rw [show pickLatest (some m0) a = some a by
            simp [pickLatest, hlt]] at heq
          exact Or.inl ((Option.some.inj heq) ▸ List.mem_cons_self a l)
        · rw [show pickLatest (some m0) a = some m0 by
            simp [pickLatest, hlt]] at heq
          exact Or.inr heq

lemma foldl_pickLatest_max (l : List AlarmRow) :
    ∀ (acc : Option AlarmRow) (m : AlarmRow),
      l.foldl pickLatest acc = some m →
      (∀ r ∈ l, r.last_triggered_at ≤ m.last_triggered_at)
      ∧ (∀ m0, acc = some m0 → m0.last_triggered_at ≤ m.last_triggered_at) := by
  induction l with
  | nil =>
    intro acc m h
    refine ⟨fun r hr => absurd hr (List.not_mem_nil r), fun m0 h0 => ?_⟩
    rw [h0] at h
    exact le_of_eq (by rw [Option.some.inj h])
  | cons a l ih =>
    intro acc m h
    rw [List.foldl_cons] at h
    obtain ⟨hl, hacc⟩ := ih (pickLatest acc a) m h
    have ha : a.last_triggered_at ≤ m.last_triggered_at := by
      cases acc with
      | none => exact hacc a rfl
      | some m0 =>
        by_cases hlt : m0.last_triggered_at < a.last_triggered_at
        · exact hacc a (by simp [pickLatest, hlt])
        · exact le_trans (le_of_not_lt hlt)
            (hacc m0 (by simp [pickLatest, hlt]))
    refine ⟨fun r hr => ?_, fun m0 h0 => ?_⟩
    · rcases List.mem_cons.mp hr with h1 | h2
      · rw [h1]; exact ha
      · exact hl r h2
    · subst h0
      by_cases hlt : m0.last_triggered_at < a.last_triggered_at
      · exact le_trans (le_of_lt hlt) ha
      · exact hacc m0 (by simp [pickLatest, hlt])

lemma selectLiveAlarm_none_iff (tbl : List AlarmRow) (a : Alarm) :
    selectLiveAlarm tbl a = none ↔ tbl.filter (archiveMatches a) = [] := by
  unfold selectLiveAlarm
  constructor
  · intro h
    cases hf : tbl.filter (archiveMatches a) with
    | nil => rfl
    | cons x xs =>
      rw [hf, List.foldl_cons] at h
      obtain ⟨y, hy⟩ := foldl_pickLatest_isSome xs x
      rw [show pickLatest none x = some x from rfl, hy] at h
      exact Option.noConfusion h
  · intro h
    rw [h]
    rfl

/-- C8: the archiver's lookup returns a most-recent non-cleared live row
    matching the incoming alarm's (device, type, code) when one exists;
    when none exists the message is a silent no-op on the whole store;
    when one is found the history insert and the live-row delete happen
    together in the one atomic step the worker commits. -/
theorem archiver_lookup_noop_atomic (now : Int) (db : DB) (a : Alarm) :
    (selectLiveAlarm db.alarms a = none ↔
        ∀ r ∈ db.alarms, ¬(archiveMatches a r = true))
    ∧ (selectLiveAlarm db.alarms a = none → archive_alarm_step now db a = db)
    ∧ (∀ row, selectLiveAlarm db.alarms a = some row →
        row ∈ db.alarms ∧ archiveMatches a row = true
        ∧ (∀ r ∈ db.alarms, archiveMatches a r = true →
            r.last_triggered_at ≤ row.last_triggered_at)
        ∧ (archive_alarm_step now db a).alarm_history
            = db.alarm_history ++ [archivedHistoryRow now a row]
        ∧ (archive_alarm_step now db a).alarms
            = db.alarms.filter (fun r => !(r.id == row.id))) := by
  refine ⟨?_, ?_, ?_⟩
  · rw [selectLiveAlarm_none_iff]
    exact List.filter_eq_nil_iff
  · intro h
    unfold archive_alarm_step
    rw [h]
  · intro row h
    have hmem : row ∈ db.alarms.filter (archiveMatches a) := by
      rcases foldl_pickLatest_mem (db.alarms.filter (archiveMatches a))
          none row h with hm | habs
      · exact hm
      · exact Option.noConfusion habs
    obtain ⟨hin, hmatch⟩ := List.mem_filter.mp hmem
    refine ⟨hin, hmatch, fun r hr hrm => ?_, ?_, ?_⟩
    · exact (foldl_pickLatest_max (db.alarms.filter (archiveMatches a))
        none row h).1 r (List.mem_filter.mpr ⟨hr, hrm⟩)
    · unfold archive_alarm_step
      rw [h]
    · unfold archive_alarm_step
      rw [h]

/-- The C8 witness store: one live active row for (1, "system", 1001) and
    an unrelated device-2 row. -/
def c8db : DB where
  devices := [{ id := 1, device_sn := "SN0001" }]
  ess_realtime_data := []
  history_energy := []
  alarms :=
    [{ id := 1, device_id := 1, alarm_type := "system", code := 1001,
       level := "major", extra := "\x7b\x7d", status := "active",
       first_triggered_at := some 40, last_triggered_at := 60,
       repeat_count := 2, remark := none, confirmed_at := none,
       confirmed_by := none, cleared_at := none, cleared_by := none },
     { id := 2, device_id := 2, alarm_type := "system", code := 1001,
       level := "major", extra := "\x7b\x7d", status := "active",
       first_triggered_at := some 10, last_triggered_at := 10,
       repeat_count := 1, remark := none, confirmed_at := none,
       confirmed_by := none, cleared_at := none, cleared_by := none }]
  alarm_next_id := 3
  alarm_history := []
  device_rpc_change_log := []

/-- The archivable clear message of the C8 witness. -/
def c8alarm : Alarm :=
  normalizeAlarm 1 90
    { alarm_type := some "system", code := some 1001, level := some "major",
      status := some "cleared" }

/-- C8 witness: the found row is archived — history gains exactly its
    archived image and the live row is deleted — in the one step; and a
    second identical message is a silent no-op. -/
theorem archiver_lookup_noop_atomic_witness :
    (selectLiveAlarm c8db.alarms c8alarm = some (c8db.alarms.head (by decide))
    ∧ (archive_alarm_step 95 c8db c8alarm).alarm_history
        = c8db.alarm_history
            ++ [archivedHistoryRow 95 c8alarm (c8db.alarms.head (by decide))])
    ∧ (selectLiveAlarm (archive_alarm_step 95 c8db c8alarm).alarms c8alarm = none
    ∧ archive_alarm_step 96 (archive_alarm_step 95 c8db c8alarm) c8alarm
        = archive_alarm_step 95 c8db c8alarm) :=
  ⟨⟨by decide,
    ((archiver_lookup_noop_atomic 95 c8db c8alarm).2.2
        (c8db.alarms.head (by decide)) (by decide)).2.2.2.1⟩,
   ⟨by decide,
    (archiver_lookup_noop_atomic 96 (archive_alarm_step 95 c8db c8alarm)
        c8alarm).2.1 (by decide)⟩⟩

/-! ## Claim C3 -/

lemma fkOk_insert_self (devs : List DeviceRow) (i : Int) :
    fkOk (deviceInsertIfAbsent devs i) i = true := by
  unfold deviceInsertIfAbsent
  by_cases h : devs.any (fun d => d.id == i) = true
  · rw [if_pos h]
    exact h
  · rw [if_neg h]
    unfold fkOk
    simp [List.any_append]

lemma fkOk_insert_mono (devs : List DeviceRow) (i d : Int)
    (h : fkOk devs d = true) :
    fkOk (deviceInsertIfAbsent devs i) d = true := by
  unfold deviceInsertIfAbsent
  by_cases hc : devs.any (fun x => x.id == i) = true
  · rw [if_pos hc]
    exact h
  · rw [if_neg hc]
    unfold fkOk at h ⊢
    simp [List.any_append, h]

lemma fkOk_ensure_mono (ids : List Int) :
    ∀ devs d, fkOk devs d = true →
      fkOk (ensure_devices_exist devs ids) d = true := by
  induction ids with
  | nil => intro devs d h; exact h
  | cons i ids ih =>
    intro devs d h
    unfold ensure_devices_exist
    rw [List.foldl_cons]
    exact ih (deviceInsertIfAbsent devs i) d (fkOk_insert_mono devs i d h)

lemma fkOk_ensure_mem (ids : List Int) :
    ∀ devs d, d ∈ ids → fkOk (ensure_devices_exist devs ids) d = true := by
  induction ids with
  | nil => intro devs d h; exact absurd h (List.not_mem_nil d)
  | cons i ids ih =>
    intro devs d h
    unfold ensure_devices_exist
    rw [List.foldl_cons]
    rcases List.mem_cons.mp h with h1 | h2
    · subst h1
      exact fkOk_ensure_mono ids (deviceInsertIfAbsent devs d) d
        (fkOk_insert_self devs d)
    · exact ih (deviceInsertIfAbsent devs i) d h2

/-- An empty store: no devices registered yet. -/
def c3db : DB where
  devices := []
  ess_realtime_data := []
  history_energy := []
  alarms := []
  alarm_next_id := 1
  alarm_history := []
  device_rpc_change_log := []

/-- An ordinary active alarm for the never-seen device 9. -/
def c3alarm : Alarm :=
  normalizeAlarm 9 10
    { alarm_type := some "system", code := some 2002, level := some "major" }

/-- C3 counterexample: the alarm flusher's batch transaction performs no
    device-existence step, so a batch referencing a never-seen device
    fails on referential integrity — refuting "the telemetry, history, or
    alarm Batch Flusher first ensures every device id ... so the write
    cannot fail on referential integrity". -/
theorem alarm_flusher_fk_counterexample :
    alarmFlusherBatchTxn c3db [c3alarm] = Except.error "ForeignKeyViolation" :=
  rfl

/-- C3 amended: the telemetry and history flushers ensure every
    referenced device exists before their batch write, so those
    transactions never fail on referential integrity; the alarm flusher
    performs no such step and its batch write can fail on referential
    integrity for a missing device. -/
theorem device_registrar_coverage :
    (∀ now db batch, ∃ db2, flusherBatchTxn now db batch = Except.ok db2)
    ∧ (∀ db batch, ∃ db2, historyFlusherBatchTxn db batch = Except.ok db2)
    ∧ (∃ db batch,
        alarmFlusherBatchTxn db batch = Except.error "ForeignKeyViolation") := by
  refine ⟨?_, ?_, ⟨c3db, [c3alarm], rfl⟩⟩
  · intro now db batch
    have hall : batch.all (fun r =>
        fkOk (ensure_devices_exist db.devices (batch.map recDeviceId))
          (recDeviceId r)) = true := by
      rw [List.all_eq_true]
      intro r hr
      exact fkOk_ensure_mem (batch.map recDeviceId) db.devices (recDeviceId r)
        (List.mem_map_of_mem recDeviceId hr)
    exact ⟨_, by unfold flusherBatchTxn; rw [if_pos hall]⟩
  · intro db batch
    have hall : batch.all (fun r =>
        fkOk (ensure_devices_exist db.devices (batch.map (fun x => x.device_id)))
          r.device_id) = true := by
      rw [List.all_eq_true]
      intro r hr
      exact fkOk_ensure_mem (batch.map (fun x => x.device_id)) db.devices
        r.device_id (List.mem_map_of_mem (fun x => x.device_id) hr)
    exact ⟨_, by unfold historyFlusherBatchTxn; rw [if_pos hall]⟩

/-! ## Claim C6 -/

lemma flusherRun_go (write : σ → β → Except String σ) (batches : List β) :
    ∀ (db : σ) (l0 : List String),
      batches.foldl (flusherStep write) (db, l0)
        = ((batches.foldl (flusherStep write) (db, [])).1,
           l0 ++ (batches.foldl (flusherStep write) (db, [])).2) := by
  induction batches with
  | nil => intro db l0; simp
  | cons b bs ih =>
    intro db l0
    rw [List.foldl_cons, List.foldl_cons]
    cases hw : write db b with
    | ok db2 =>
      have hs1 : flusherStep write (db, l0) b = (db2, l0) := by
        unfold flusherStep; rw [hw]
      have hs2 : flusherStep write (db, ([] : List String)) b = (db2, []) := by
        unfold flusherStep; rw [hw]
      rw [hs1, hs2]
      exact ih db2 l0
    | error e =>
      have hs1 : flusherStep write (db, l0) b
          = (db, l0 ++ ["[flusher] DB error: " ++ e]) := by
        unfold flusherStep; rw [hw]
      have hs2 : flusherStep write (db, ([] : List String)) b
          = (db, ["[flusher] DB error: " ++ e]) := by
        unfold flusherStep; rw [hw]; rfl
      rw [hs1, hs2, ih db (l0 ++ ["[flusher] DB error: " ++ e]),
        ih db ["[flusher] DB error: " ++ e]]
      simp

/-- C6: when the batch write fails, the store is left exactly as if the
    batch had never been attempted (the rollback undoes the whole batch),
    the error is logged, the batch is not requeued — the run continues on
    the remaining batches only — and the loop keeps going instead of
    exiting. -/
theorem flusher_failure_rollback (write : σ → β → Except String σ)
    (db : σ) (b : β) (rest : List β) (e : String)
    (h : write db b = Except.error e) :
    flusherRun write db (b :: rest)
      = ((flusherRun write db rest).1,
         ("[flusher] DB error: " ++ e) :: (flusherRun write db rest).2) := by
  unfold flusherRun
  rw [List.foldl_cons]
  have hs : flusherStep write (db, ([] : List String)) b
      = (db, ["[flusher] DB error: " ++ e]) := by
    unfold flusherStep; rw [h]; rfl
  rw [hs, flusherRun_go write rest db ["[flusher] DB error: " ++ e]]
  rfl

/-- An empty store for the C6 witness. -/
def c6db : DB where
  devices := []
  ess_realtime_data := []
  history_energy := []
  alarms := []
  alarm_next_id := 1
  alarm_history := []
  device_rpc_change_log := []

/-- An alarm for an unregistered device, making its batch write fail. -/
def c6alarm : Alarm :=
  normalizeAlarm 5 10
    { alarm_type := some "hardware", code := some 3003, level := some "minor" }

/-- C6 witness: a failing alarm batch is rolled back, logged, and not
    requeued, and the run continues. -/
theorem flusher_failure_rollback_witness :
    alarmFlusherBatchTxn c6db [c6alarm] = Except.error "ForeignKeyViolation"
    ∧ flusherRun alarmFlusherBatchTxn c6db [[c6alarm]]
      = ((flusherRun alarmFlusherBatchTxn c6db []).1,
         ("[flusher] DB error: " ++ "ForeignKeyViolation")
           :: (flusherRun alarmFlusherBatchTxn c6db []).2) :=
  ⟨rfl, flusher_failure_rollback alarmFlusherBatchTxn c6db [c6alarm] []
      "ForeignKeyViolation" rfl⟩

end EssIngestor
